import Mathlib

/-!
Shallow embedding of the legalplates-client chat/session subsystem.

The definitions below are translated from the TypeScript sources of the
repository:
  * `src/lib/api.ts` — response-envelope unwrapping (`handleResponse`) and
    the SSE streaming match client (`matchTemplateStream`);
  * `src/app/chat/page.tsx` — chat-page state: `addMessage`,
    `updateCurrentChatInHistory`, `createNewChat`, `switchToChat`,
    `handleStartMatching` (with its SSE status callback and error callback)
    and `handleFillWithExamples`;
  * the upload page — `validateFile` and the file-selection flow.

Modelling conventions:
  * JavaScript strings are Lean `String`s; the handful of string builtins
    the code uses (`split('\n')`, `startsWith`, `slice`, `trim`,
    `toLowerCase`) are re-implemented structurally over `List Char` so
    that every definition evaluates by kernel reduction.
  * JavaScript numbers are Lean `Float`s.  No claim in this development
    depends on fractional or NaN arithmetic; floats only ride along as
    payload data.
  * JavaScript objects used as string-keyed maps (`answers`, `prefilled`)
    are association lists `List (String × JsValue)` with JS object-spread
    update semantics (`objSetKey`: update in place if present, else append).
  * `null`/`undefined` of optional values are both `Option.none`; where the
    code distinguishes truthiness (`x || y`, `!x`) the JS truthiness rules
    are modelled explicitly (`jsTruthy`, `jsStrOptTruthy`, `jsOrElseNone`).
  * React `setState` calls become functional record updates on an explicit
    `ChatPageState`; fresh message ids (`Date.now() + random`) and
    timestamps (`new Date()`) are modelled by a monotone counter
    (`nextId`) and a clock field (`clock`), which keeps them opaque but
    fresh, exactly as the code uses them.
-/

/-- JavaScript string split on a single character, accumulator form:
models `String.prototype.split('\n')`, which always returns at least one
(possibly empty) part. -/
def splitCharAux (sep : Char) : List Char → List Char → List String
  | [], acc => [String.mk acc.reverse]
  | c :: cs, acc =>
    if c = sep then String.mk acc.reverse :: splitCharAux sep cs []
    else splitCharAux sep cs (c :: acc)

/-- Model of `buffer.split('\n')` from `matchTemplateStream`. -/
def jsSplitNewline (s : String) : List String :=
  splitCharAux '\n' s.data []

/-- Character-list prefix test used to model `String.prototype.startsWith`. -/
def isPrefixChars : List Char → List Char → Bool
  | [], _ => true
  | _ :: _, [] => false
  | p :: ps, c :: cs => p = c && isPrefixChars ps cs

/-- Model of `line.startsWith(p)`. -/
def jsStartsWith (s p : String) : Bool :=
  isPrefixChars p.data s.data

/-- Model of `line.slice(n)` for the ASCII prefixes used by the code. -/
def jsSlice (s : String) (n : Nat) : String :=
  String.mk (s.data.drop n)

/-- Whitespace recognised by the model of `String.prototype.trim`. -/
def isJsSpace (c : Char) : Bool :=
  c = ' ' || c = '\t' || c = '\n' || c = '\r'

/-- Model of `s.trim()`. -/
def jsTrim (s : String) : String :=
  String.mk (((s.data.dropWhile isJsSpace).reverse.dropWhile isJsSpace).reverse)

/-- Model of `s.toLowerCase()` for the ASCII strings the code compares. -/
def jsToLower (s : String) : String :=
  String.mk (s.data.map Char.toLower)

/-- Runtime value of an answer field: the TypeScript type
`string | number | boolean | null`. -/
inductive JsValue where
  | str (s : String)
  | num (x : Float)
  | bool (b : Bool)
  | null

/-- JavaScript truthiness of an answer value (`Boolean(v)`): the empty
string, `0`, `NaN`, `false` and `null` are falsy.  (`x != x` detects NaN.) -/
def jsTruthy : JsValue → Bool
  | .str s => s ≠ ""
  | .num x => !(x == 0.0 || x != x)
  | .bool b => b
  | .null => false

/-- Model of the strict comparison `v === ''`. -/
def jsIsEmptyStr : JsValue → Bool
  | .str s => s = ""
  | _ => false

/-- Truthiness of an optional string (`undefined`, `null` and `''` are
falsy), used for `currentChatId`, `selectedTemplateId`, … -/
def jsStrOptTruthy : Option String → Bool
  | some s => s ≠ ""
  | none => false

/-- Model of `x || undefined` / `x || null` on an optional string: a
falsy value (absent or empty) collapses to `none`. -/
def jsOrElseNone (o : Option String) : Option String :=
  if jsStrOptTruthy o then o else none

/-- JS object lookup `obj[k]` on the association-list model (`none` is
`undefined`). -/
def objGet (obj : List (String × JsValue)) (k : String) : Option JsValue :=
  match obj.find? (fun e => e.1 == k) with
  | some e => some e.2
  | none => none

/-- JS object key update `obj[k] = v` (spread-merge building block):
replaces the first binding of `k` in place, else appends the new binding,
matching JS property-insertion order. -/
def objSetKey (obj : List (String × JsValue)) (k : String) (v : JsValue) :
    List (String × JsValue) :=
  match obj with
  | [] => [(k, v)]
  | e :: rest => if e.1 == k then (k, v) :: rest else e :: objSetKey rest k v

/-- Model of the object spread `{ ...prev, ...updates }`. -/
def objMerge (prev updates : List (String × JsValue)) : List (String × JsValue) :=
  updates.foldl (fun acc e => objSetKey acc e.1 e.2) prev

/-- JS array element assignment `arr[i] = a` as it acts on the array seen
as a list: a negative index creates a non-index expando property and
leaves the elements untouched; an index inside the array replaces the
element.  (Indices `≥ length` never occur at the call sites, which always
use `arr.length - 1`.) -/
def jsArraySet {α : Type} (l : List α) (i : Int) (a : α) : List α :=
  if i < 0 then l
  else if i.toNat < l.length then l.set i.toNat a
  else l

/-- Type `TemplateMatch` from `src/lib/types.ts`. -/
structure TemplateMatch where
  template_id : String
  title : String
  confidence : Float
  explanation : String
  doc_type : Option String
  jurisdiction : Option String
  semantic_similarity : Option Float
  source : String
  web_url : Option String

/-- Type `Question` from `src/lib/types.ts` (the source field `example` is a
Lean keyword, hence `example_`). -/
structure Question where
  key : String
  question : String
  description : Option String
  example_ : Option String
  required : Bool
  dtype : String
  regex : Option String
  enum_values : Option (List String)

/-- Type `GenerateDraftResponseBody` from `src/lib/types.ts`. -/
structure GenerateDraftResponseBody where
  draft_md : String
  instance_id : Int
  template_id : String
  template_title : String
  missing_variables : List String
  has_missing_variables : Bool

/-- Type `TemplateMatchResponseBody` from `src/lib/types.ts`. -/
structure TemplateMatchResponseBody where
  top_match : Option TemplateMatch
  alternatives : List TemplateMatch
  found : Bool
  message : Option String

/-- Message role (`'user' | 'assistant' | 'system'`). -/
inductive MsgType where
  | user
  | assistant
  | system
deriving BEq, DecidableEq

/-- Optional metadata attached to a chat message (`Message['metadata']`
in `src/app/chat/page.tsx`). -/
structure MsgMetadata where
  templateMatches : Option (List TemplateMatch)
  questions : Option (List Question)
  draft : Option GenerateDraftResponseBody
  prefilled : Option (List (String × JsValue))

/-- A chat message (`Message` in `src/app/chat/page.tsx`).  `id` and
`timestamp` are generated from the state counter/clock. -/
structure Message where
  id : String
  type : MsgType
  content : String
  timestamp : Nat
  metadata : Option MsgMetadata

/-- A stored chat session (`ChatSession` in `src/app/chat/page.tsx`).
Optional fields are `undefined` when absent in the stored snapshot. -/
structure ChatSession where
  id : String
  title : String
  messages : List Message
  createdAt : Nat
  updatedAt : Nat
  templateId : Option String
  questions : Option (List Question)
  answers : Option (List (String × JsValue))
  draft : Option GenerateDraftResponseBody

/-- Active detail tab of the right sidebar. -/
inductive SideTab where
  | variables
  | document
deriving BEq, DecidableEq

/-- The chat page's React state, as one record.  Purely visual state that
none of the modelled operations read or write (toast, slash-command
dropdown, history-panel visibility) is omitted.  `questionsRequested` is
the trace of template ids passed to `handleGetQuestions` (the question-
fetch operation); `nextId`/`clock` model fresh id and `new Date()`
generation. -/
structure ChatPageState where
  chatHistory : List ChatSession
  currentChatId : Option String
  messages : List Message
  userQuery : String
  error : Option String
  isLoading : Bool
  topMatch : Option TemplateMatch
  alternatives : List TemplateMatch
  selectedTemplateId : Option String
  answers : List (String × JsValue)
  questions : List Question
  prefilledFields : List (String × JsValue)
  draft : Option GenerateDraftResponseBody
  showSidebar : Bool
  activeTab : SideTab
  isProcessing : Bool
  questionsRequested : List String
  nextId : Nat
  clock : Nat

/-- Core of `addMessage`: how the three append modes transform the
message list.  `replaceLast` writes `updated[updated.length - 1] =
newMessage`; `appendToLast` extends the last message's content by
`'\n\n' + content` when the list is nonempty and pushes the new message
otherwise; the default is a plain push. -/
def addMessageList (prev : List Message) (newMessage : Message)
    (replaceLast appendToLast : Bool) : List Message :=
  if replaceLast then
    jsArraySet prev ((prev.length : Int) - 1) newMessage
  else if appendToLast then
    if prev.length > 0 then
      match prev.getLast? with
      | some last =>
        jsArraySet prev ((prev.length : Int) - 1)
          { last with content := last.content ++ "\n\n" ++ newMessage.content }
      | none => prev
    else prev ++ [newMessage]
  else prev ++ [newMessage]

/-- The fresh `Message` built at the top of `addMessage` (id from
`Date.now() + random`, timestamp from `new Date()`). -/
def freshMessage (s : ChatPageState) (ty : MsgType) (content : String)
    (md : Option MsgMetadata) : Message :=
  { id := toString s.nextId, type := ty, content := content,
    timestamp := s.clock, metadata := md }

/-- Function `addMessage` as a state transformer on the page state. -/
def stAddMessage (s : ChatPageState) (ty : MsgType) (content : String)
    (md : Option MsgMetadata) (replaceLast appendToLast : Bool) : ChatPageState :=
  { s with
    messages := addMessageList s.messages (freshMessage s ty content md)
      replaceLast appendToLast,
    nextId := s.nextId + 1 }

/-- C5: appending a message in append-to-last mode on an empty message
list behaves as a plain append: it yields the one-element list containing
the new message (the `updated.length > 0` guard falls through to
`updated.push(newMessage)`), and being a total function it never throws. -/
theorem appendToLast_on_empty_is_plain_append (m : Message) :
    addMessageList [] m false true = [m] := by
  simp [addMessageList]

/-- C9: appending a message in replace-last mode on an empty message list
leaves the list empty: the write `updated[-1] = newMessage` creates a
non-index property and does not extend the array, so the message is
silently discarded and nothing is thrown. -/
theorem replaceLast_on_empty_discards (m : Message) :
    addMessageList [] m true false = [] := by
  simp [addMessageList, jsArraySet]

/-- Model of `Array.prototype.findIndex` (first index satisfying the
predicate) used by both history-upsert sites. -/
def firstMatchIdx (p : ChatSession → Bool) : List ChatSession → Option Nat
  | [] => none
  | a :: t => if p a then some 0 else (firstMatchIdx p t).map (· + 1)

/-- History upsert shared by `updateCurrentChatInHistory` and
`createNewChat`: if a session with the same id exists, replace it at its
first index (`updated[existingIndex] = updatedChat` / the equivalent
`map` in `createNewChat`); otherwise prepend the new session
(`[updatedChat, ...prev]`). -/
def upsertChat (c : ChatSession) (hist : List ChatSession) : List ChatSession :=
  match firstMatchIdx (fun x => x.id == c.id) hist with
  | some i => hist.set i c
  | none => c :: hist

/-- The `ChatSession` snapshot built from the current page state by
`updateCurrentChatInHistory` (and, identically, by `createNewChat`):
title from the first user message (`generateChatTitle` is `trim`),
`templateId := selectedTemplateId || undefined`, questions/answers only
when nonempty, `draft := draft || undefined`. -/
def mkSnapshot (cid : String) (s : ChatPageState) : ChatSession :=
  let firstUser := s.messages.find? (fun m => m.type == MsgType.user)
  let title := match firstUser with
    | some m => jsTrim m.content
    | none => "New Chat"
  { id := cid, title := title, messages := s.messages,
    createdAt := s.clock, updatedAt := s.clock,
    templateId := jsOrElseNone s.selectedTemplateId,
    questions := if s.questions.length > 0 then some s.questions else none,
    answers := if s.answers.length > 0 then some s.answers else none,
    draft := s.draft }

/-- Function `updateCurrentChatInHistory` from `src/app/chat/page.tsx`: a no-op
unless there is a (truthy) current chat id and at least one message;
otherwise snapshot the current state and upsert it into the history. -/
def updateCurrentChatInHistory (s : ChatPageState) : ChatPageState :=
  match s.currentChatId with
  | none => s
  | some cid =>
    if cid == "" || s.messages.isEmpty then s
    else { s with chatHistory := upsertChat (mkSnapshot cid s) s.chatHistory }

/-- Function `switchToChat` from `src/app/chat/page.tsx`: look the session up by
id; when found, replace the whole derived UI state from the stored
snapshot (`chat.templateId || null`, `chat.questions || []`,
`chat.answers || {}`, `chat.draft || null`), reset prefilled fields, and
recompute sidebar visibility and active tab. -/
def switchToChat (chatId : String) (s : ChatPageState) : ChatPageState :=
  match s.chatHistory.find? (fun c => c.id == chatId) with
  | none => s
  | some chat =>
    let hasQs : Bool := match chat.questions with
      | some qs => decide (qs.length > 0)
      | none => false
    { s with
      currentChatId := some chatId,
      messages := chat.messages,
      selectedTemplateId := jsOrElseNone chat.templateId,
      questions := chat.questions.getD [],
      answers := chat.answers.getD [],
      prefilledFields := [],
      draft := chat.draft,
      showSidebar := hasQs || chat.draft.isSome,
      activeTab :=
        if chat.draft.isSome then SideTab.document
        else if hasQs then SideTab.variables
        else SideTab.variables }

/-- Function `createNewChat` from `src/app/chat/page.tsx`: snapshot the current
chat into the history when it has a truthy id and messages, then reset
every piece of per-chat state and make the fresh id current. -/
def createNewChat (s : ChatPageState) (newChatId : String) : ChatPageState :=
  let saved :=
    if jsStrOptTruthy s.currentChatId && !s.messages.isEmpty then
      match s.currentChatId with
      | some cid => { s with chatHistory := upsertChat (mkSnapshot cid s) s.chatHistory }
      | none => s
    else s
  { saved with
    currentChatId := some newChatId,
    messages := [], userQuery := "", error := none, isLoading := false,
    topMatch := none, alternatives := [], selectedTemplateId := none,
    answers := [], questions := [], prefilledFields := [], draft := none,
    showSidebar := false, activeTab := SideTab.variables }

/-- After upserting a session, looking its id up in the history finds
exactly the upserted snapshot (earlier entries cannot match because the
replacement happened at the first matching index). -/
theorem find?_upsertChat (c : ChatSession) (hist : List ChatSession) :
    (upsertChat c hist).find? (fun x => x.id == c.id) = some c := by
  induction hist with
  | nil => simp [upsertChat, firstMatchIdx, List.find?]
  | cons a t ih =>
    by_cases h : (a.id == c.id) = true
    · simp [upsertChat, firstMatchIdx, h, List.find?]
    · have h' : (a.id == c.id) = false := by
        cases hb : (a.id == c.id) <;> simp_all
      unfold upsertChat at ih ⊢
      simp only [firstMatchIdx, h', if_neg (by simp [h'] : ¬ (a.id == c.id) = true)]
      cases hidx : firstMatchIdx (fun x => x.id == c.id) t with
      | none =>
        simp [List.find?]
      | some i =>
        simp only [Option.map_some', List.set]
        rw [hidx] at ih
        simp [List.find?, h', ih]

/-- Switching chats never changes the stored history. -/
theorem switchToChat_chatHistory (chatId : String) (s : ChatPageState) :
    (switchToChat chatId s).chatHistory = s.chatHistory := by
  unfold switchToChat
  cases s.chatHistory.find? (fun c => c.id == chatId) <;> rfl

/-- An optional string that is not `some ""` is a fixed point of the JS
`x || null` collapse. -/
theorem jsOrElseNone_eq_self (o : Option String) (h : o ≠ some "") :
    jsOrElseNone o = o := by
  cases o with
  | none => rfl
  | some v =>
    have hv : v ≠ "" := fun hv => h (by rw [hv])
    simp [jsOrElseNone, jsStrOptTruthy, hv]

/-- Storing a list only when nonempty and restoring with default `[]` is
the identity. -/
theorem optList_store_restore {α : Type} (l : List α) :
    (if l.length > 0 then some l else none).getD [] = l := by
  cases l <;> simp


/-- When the looked-up session exists, `switchToChat` loads its fields
through the `|| null` / `|| []` / `|| {}` defaults. -/
theorem switchToChat_found (chatId : String) (t : ChatPageState) (chat : ChatSession)
    (hfind : t.chatHistory.find? (fun c => c.id == chatId) = some chat) :
    (switchToChat chatId t).messages = chat.messages ∧
    (switchToChat chatId t).selectedTemplateId = jsOrElseNone chat.templateId ∧
    (switchToChat chatId t).questions = chat.questions.getD [] ∧
    (switchToChat chatId t).answers = chat.answers.getD [] ∧
    (switchToChat chatId t).draft = chat.draft := by
  unfold switchToChat
  rw [hfind]
  exact ⟨rfl, rfl, rfl, rfl, rfl⟩

/-- C1: for any page state holding session `cid` (a truthy current id,
at least one message, and a selected-template id that is not the
degenerate empty string), persisting the session via the history upsert,
switching away to another session and switching back restores the
message list, selected template id, question list, answer map and draft
exactly as last recorded. -/
theorem session_switch_roundtrip
    (s : ChatPageState) (cid other : String)
    (hc : s.currentChatId = some cid) (hcne : cid ≠ "")
    (hm : s.messages ≠ []) (ht : s.selectedTemplateId ≠ some "")
    (_hother : other ≠ cid) :
    (switchToChat cid (switchToChat other (updateCurrentChatInHistory s))).messages
        = s.messages ∧
    (switchToChat cid (switchToChat other (updateCurrentChatInHistory s))).selectedTemplateId
        = s.selectedTemplateId ∧
    (switchToChat cid (switchToChat other (updateCurrentChatInHistory s))).questions
        = s.questions ∧
    (switchToChat cid (switchToChat other (updateCurrentChatInHistory s))).answers
        = s.answers ∧
    (switchToChat cid (switchToChat other (updateCurrentChatInHistory s))).draft
        = s.draft := by
  have hb : (cid == "") = false := by
    simp [hcne]
  have he : s.messages.isEmpty = false := by
    cases hmm : s.messages with
    | nil => exact absurd hmm hm
    | cons a t => rfl
  have h1 : (updateCurrentChatInHistory s).chatHistory
      = upsertChat (mkSnapshot cid s) s.chatHistory := by
    unfold updateCurrentChatInHistory
    rw [hc]
    simp [hb, he]
  have hid : (mkSnapshot cid s).id = cid := rfl
  have hfind : (switchToChat other (updateCurrentChatInHistory s)).chatHistory.find?
      (fun c => c.id == cid) = some (mkSnapshot cid s) := by
    rw [switchToChat_chatHistory, h1]
    have hf := find?_upsertChat (mkSnapshot cid s) s.chatHistory
    rw [hid] at hf
    exact hf
  obtain ⟨p1, p2, p3, p4, p5⟩ :=
    switchToChat_found cid (switchToChat other (updateCurrentChatInHistory s))
      (mkSnapshot cid s) hfind
  refine ⟨p1, ?_, ?_, ?_, p5⟩
  · rw [p2]
    show jsOrElseNone (jsOrElseNone s.selectedTemplateId) = s.selectedTemplateId
    rw [jsOrElseNone_eq_self _ ht, jsOrElseNone_eq_self _ ht]
  · rw [p3]
    exact optList_store_restore s.questions
  · rw [p4]
    exact optList_store_restore s.answers

/-- A concrete chat message used by witnesses. -/
def wMsg : Message :=
  { id := "0", type := MsgType.user, content := "I need an NDA",
    timestamp := 0, metadata := none }

/-- A concrete question used by witnesses. -/
def wQuestion : Question :=
  { key := "party_a", question := "Who is party A?", description := none,
    example_ := some "Acme Corp", required := true, dtype := "string",
    regex := none, enum_values := none }

/-- A concrete draft used by witnesses. -/
def wDraft : GenerateDraftResponseBody :=
  { draft_md := "# NDA", instance_id := 1, template_id := "t1",
    template_title := "NDA", missing_variables := [],
    has_missing_variables := false }

/-- A concrete page state used by witnesses. -/
def wState : ChatPageState :=
  { chatHistory := [], currentChatId := some "chat-a", messages := [wMsg],
    userQuery := "", error := none, isLoading := false, topMatch := none,
    alternatives := [], selectedTemplateId := some "t1",
    answers := [("party_a", JsValue.str "Acme Corp")],
    questions := [wQuestion], prefilledFields := [], draft := some wDraft,
    showSidebar := true, activeTab := SideTab.variables,
    isProcessing := false, questionsRequested := [], nextId := 1, clock := 5 }

/-- Witness for C1: the round trip theorem applied to a concrete state
with one message, a selected template, one question, one answer and a
draft. -/
theorem session_switch_roundtrip_witness :
    wState.currentChatId = some "chat-a" ∧ "chat-a" ≠ "" ∧
    wState.messages ≠ [] ∧ wState.selectedTemplateId ≠ some "" ∧
    "chat-b" ≠ "chat-a" ∧
    ((switchToChat "chat-a" (switchToChat "chat-b" (updateCurrentChatInHistory wState))).messages
        = wState.messages ∧
     (switchToChat "chat-a" (switchToChat "chat-b" (updateCurrentChatInHistory wState))).selectedTemplateId
        = wState.selectedTemplateId ∧
     (switchToChat "chat-a" (switchToChat "chat-b" (updateCurrentChatInHistory wState))).questions
        = wState.questions ∧
     (switchToChat "chat-a" (switchToChat "chat-b" (updateCurrentChatInHistory wState))).answers
        = wState.answers ∧
     (switchToChat "chat-a" (switchToChat "chat-b" (updateCurrentChatInHistory wState))).draft
        = wState.draft) :=
  ⟨rfl, by decide, by simp [wState], by decide, by decide,
   session_switch_roundtrip wState "chat-a" "chat-b" rfl (by decide)
     (by simp [wState]) (by decide) (by decide)⟩

/-- The response envelope `APIResponse<T>` from `src/lib/types.ts`:
`{ error: boolean; message: string; body: T | null }`. -/
structure APIResponse (T : Type) where
  error : Bool
  message : String
  body : Option T

/-- An HTTP response as the axios promise chain sees it: a status code
and (for the JSON endpoints) the parsed envelope. -/
structure HttpResponse (T : Type) where
  status : Nat
  data : APIResponse T

/-- Function `handleResponse` from `src/lib/api.ts`: reject with
`data.message || 'API returned an error'` when the envelope flags an
error, reject with the fixed string `'API returned null body'` when the
body is null, otherwise resolve with the unwrapped body. -/
def handleResponse {T : Type} (data : APIResponse T) : Except String T :=
  if data.error then
    Except.error (if data.message = "" then "API returned an error" else data.message)
  else
    match data.body with
    | none => Except.error "API returned null body"
    | some b => Except.ok b

/-- The axios layer in front of `handleResponse`: the `apiClient`
instance is created without a custom `validateStatus`, so axios resolves
only 2xx responses and rejects every other status with
`"Request failed with status code N"` before `handleResponse` runs. -/
def processResponse {T : Type} (resp : HttpResponse T) : Except String T :=
  if 200 ≤ resp.status ∧ resp.status < 300 then handleResponse resp.data
  else Except.error ("Request failed with status code " ++ toString resp.status)

/-- Response processing of `uploadDocument`: request construction aside,
the function is `handleResponse(await apiClient.post(...))`. -/
def uploadDocument {T : Type} (resp : HttpResponse T) : Except String T :=
  processResponse resp

/-- Response processing of `getTemplates`. -/
def getTemplates {T : Type} (resp : HttpResponse T) : Except String T :=
  processResponse resp

/-- Response processing of `getTemplate`. -/
def getTemplate {T : Type} (resp : HttpResponse T) : Except String T :=
  processResponse resp

/-- Response processing of `deleteTemplate`. -/
def deleteTemplate {T : Type} (resp : HttpResponse T) : Except String T :=
  processResponse resp

/-- Response processing of `matchTemplate` (the non-streaming variant). -/
def matchTemplate {T : Type} (resp : HttpResponse T) : Except String T :=
  processResponse resp

/-- Response processing of `getQuestions`. -/
def getQuestions {T : Type} (resp : HttpResponse T) : Except String T :=
  processResponse resp

/-- Response processing of `generateDraft`. -/
def generateDraft {T : Type} (resp : HttpResponse T) : Except String T :=
  processResponse resp

/-- C2 counterexample: the claim "rejects with message exactly X for
every status code" fails twice over.  With status 200 and the envelope
`{error: true, message: ""}` the rejection message is the fallback
`'API returned an error'`, not `""`; with status 500 and message `"X"`
axios rejects with its own status-code error, not `"X"`. -/
theorem envelope_error_passthrough_counterexample :
    processResponse (T := Nat) { status := 200, data := { error := true, message := "", body := none } }
        = Except.error "API returned an error" ∧
    "API returned an error" ≠ "" ∧
    processResponse (T := Nat) { status := 500, data := { error := true, message := "X", body := none } }
        = Except.error "Request failed with status code 500" ∧
    (Except.error "Request failed with status code 500" : Except String Nat)
        ≠ Except.error "X" := by
  refine ⟨rfl, by decide, rfl, fun h => absurd (Except.error.inj h) (by decide)⟩

/-- C2 (amended): for every API client function — all of which process
their response through `processResponse`/`handleResponse` — and every
response whose envelope is `{error: true, message: X}`: when the HTTP
status is 2xx and `X` is nonempty the function rejects with exactly `X`;
when `X` is empty it rejects with the fallback `'API returned an
error'`; for a non-2xx status axios rejects with its status-code error
before the envelope is inspected. -/
theorem envelope_error_passthrough {T : Type} (resp : HttpResponse T)
    (herr : resp.data.error = true) :
    (200 ≤ resp.status ∧ resp.status < 300 → resp.data.message ≠ "" →
      processResponse resp = Except.error resp.data.message) ∧
    (200 ≤ resp.status ∧ resp.status < 300 → resp.data.message = "" →
      processResponse resp = Except.error "API returned an error") ∧
    (¬ (200 ≤ resp.status ∧ resp.status < 300) →
      processResponse resp
        = Except.error ("Request failed with status code " ++ toString resp.status)) := by
  refine ⟨?_, ?_, ?_⟩
  · intro h2 hmsg
    simp [processResponse, handleResponse, h2, herr, hmsg]
  · intro h2 hmsg
    simp [processResponse, handleResponse, h2, herr, hmsg]
  · intro h2
    simp [processResponse, h2]

/-- Witness for the amended C2 at concrete inputs: a 201 response with
message `"boom"` rejects with exactly `"boom"`. -/
theorem envelope_error_passthrough_witness :
    ({ status := 201, data := { error := true, message := "boom", body := none } } :
        HttpResponse Nat).data.error = true ∧
    (200 ≤ 201 ∧ 201 < 300) ∧ "boom" ≠ "" ∧
    processResponse (T := Nat)
        { status := 201, data := { error := true, message := "boom", body := none } }
      = Except.error "boom" :=
  ⟨rfl, by decide, by decide,
   (envelope_error_passthrough
     { status := 201, data := { error := true, message := "boom", body := none } }
     rfl).1 (by decide) (by decide)⟩

/-- C7 counterexample: a 200 response with `error = false`, a null body
and envelope message `"all good"` is rejected with the fixed string
`'API returned null body'`, not with the envelope's message field. -/
theorem null_body_message_counterexample :
    processResponse (T := Nat)
        { status := 200, data := { error := false, message := "all good", body := none } }
      = Except.error "API returned null body" ∧
    (Except.error "API returned null body" : Except String Nat)
      ≠ Except.error "all good" := by
  refine ⟨rfl, fun h => absurd (Except.error.inj h) (by decide)⟩

/-- C7 (amended): for every API client function and every 2xx response
whose envelope has `error = false` and a null body, the function rejects,
but with the fixed message `'API returned null body'` — the envelope's
own message field is ignored on this path. -/
theorem null_body_rejects_fixed_message {T : Type} (resp : HttpResponse T)
    (h2 : 200 ≤ resp.status ∧ resp.status < 300)
    (herr : resp.data.error = false) (hbody : resp.data.body = none) :
    processResponse resp = Except.error "API returned null body" := by
  simp [processResponse, handleResponse, h2, herr, hbody]

/-- Witness for the amended C7 at a concrete 200 response. -/
theorem null_body_rejects_fixed_message_witness :
    (200 ≤ 200 ∧ 200 < 300) ∧
    ({ status := 200, data := { error := false, message := "ok", body := none } } :
        HttpResponse Nat).data.error = false ∧
    processResponse (T := Nat)
        { status := 200, data := { error := false, message := "ok", body := none } }
      = Except.error "API returned null body" :=
  ⟨by decide, rfl,
   null_body_rejects_fixed_message
     { status := 200, data := { error := false, message := "ok", body := none } }
     (by decide) rfl rfl⟩

/-- The pieces of a browser `File` that `validateFile` reads. -/
structure JsFile where
  name : String
  type : String
  size : Nat

/-- Constant `validTypes` from the upload page. -/
def validTypes : List String :=
  ["application/pdf",
   "application/vnd.openxmlformats-officedocument.wordprocessingml.document"]

/-- Constant `maxSize` from the upload page: `10 * 1024 * 1024`. -/
def maxSize : Nat := 10 * 1024 * 1024

/-- Function `validateFile` from the upload page: `none` means valid, `some e` is
the inline validation error. -/
def validateFile (file : JsFile) : Option String :=
  if !(validTypes.contains file.type) then
    some "Please upload a PDF or DOCX file"
  else if file.size > maxSize then
    some "File size must be less than 10MB"
  else none

/-- Upload-page state touched by file selection and upload. -/
structure UploadState where
  file : Option JsFile
  error : Option String
  resultPresent : Bool

/-- Functions `handleFileInput` / `handleDrop` from the upload page: clear error
and result, then either record the validation error (leaving no selected
file) or select the file. -/
def handleFileInput (s : UploadState) (f : JsFile) : UploadState :=
  let s0 : UploadState := { s with error := none, resultPresent := false }
  match validateFile f with
  | some e => { s0 with error := some e }
  | none => { s0 with file := some f }

/-- Whether `handleUpload` issues a network request: it returns
immediately when no file is selected (`if (!file) return`), so a request
goes out exactly when a validated file is present. -/
def uploadRequestIssued (s : UploadState) : Bool :=
  s.file.isSome

/-- C6: for either accepted MIME type, a file of exactly 10MB passes
client-side validation and a file of 10MB + 1 bytes is rejected with the
size error; selecting the oversized file records the error and leaves no
file selected, so the upload handler issues no network request. -/
theorem upload_size_boundary (name mt : String)
    (hmt : validTypes.contains mt = true) (s : UploadState)
    (hf : s.file = none) :
    validateFile { name := name, type := mt, size := 10 * 1024 * 1024 } = none ∧
    validateFile { name := name, type := mt, size := 10 * 1024 * 1024 + 1 }
      = some "File size must be less than 10MB" ∧
    (handleFileInput s { name := name, type := mt, size := 10 * 1024 * 1024 + 1 }).error
      = some "File size must be less than 10MB" ∧
    uploadRequestIssued
      (handleFileInput s { name := name, type := mt, size := 10 * 1024 * 1024 + 1 })
      = false := by
  have hmem : mt ∈ validTypes := by simpa using hmt
  have h1 : validateFile { name := name, type := mt, size := 10 * 1024 * 1024 } = none := by
    simp [validateFile, hmem, maxSize]
  have h2 : validateFile { name := name, type := mt, size := 10 * 1024 * 1024 + 1 }
      = some "File size must be less than 10MB" := by
    simp [validateFile, hmem, maxSize]
  refine ⟨h1, h2, ?_, ?_⟩
  · simp [handleFileInput, h2]
  · simp [handleFileInput, h2, uploadRequestIssued, hf]

/-- Witness for C6 with the PDF MIME type and an empty initial
upload-page state. -/
theorem upload_size_boundary_witness :
    validTypes.contains "application/pdf" = true ∧
    ({ file := none, error := none, resultPresent := false } : UploadState).file = none ∧
    (validateFile { name := "a.pdf", type := "application/pdf", size := 10 * 1024 * 1024 } = none ∧
     validateFile { name := "a.pdf", type := "application/pdf", size := 10 * 1024 * 1024 + 1 }
       = some "File size must be less than 10MB" ∧
     (handleFileInput { file := none, error := none, resultPresent := false }
        { name := "a.pdf", type := "application/pdf", size := 10 * 1024 * 1024 + 1 }).error
       = some "File size must be less than 10MB" ∧
     uploadRequestIssued
       (handleFileInput { file := none, error := none, resultPresent := false }
         { name := "a.pdf", type := "application/pdf", size := 10 * 1024 * 1024 + 1 })
       = false) :=
  ⟨by decide, rfl,
   upload_size_boundary "a.pdf" "application/pdf" (by decide)
     { file := none, error := none, resultPresent := false } rfl⟩

/-- Type `SSEStatusUpdate` from `src/lib/api.ts`.  The status is kept as a
string: the declared TypeScript union is not enforced at runtime, and the
consumer compares status strings. -/
structure SSEUpdate where
  status : String
  message : String
  data : Option TemplateMatchResponseBody

/-- One observable callback invocation of `matchTemplateStream`,
distinguished by call site: `onStatusUpdate(data)`, the
`onError(new Error('Failed to parse server response'))` raised on
malformed JSON, and the `onError` issued from the promise `catch`
handler for transport failures. -/
inductive CEvent where
  | statusUpdate (u : SSEUpdate)
  | parseErrorCb
  | transportErrorCb (msg : String)

/-- Terminal statuses after which the reader is cancelled
(`data.status === 'success' || 'error' || 'no_templates'`). -/
def isTerminalStatus (st : String) : Bool :=
  st == "success" || st == "error" || st == "no_templates"

/-- The `for (const line of lines)` body of `matchTemplateStream`,
parameterised by the JSON parser `pj` (a model of `JSON.parse` on the
payload after `line.slice(6)`; `none` models a parse exception).
Returns the callback events fired and whether the stream terminated
(terminal status or parse failure — both `return` out of the read
loop after cancelling the reader). -/
def processLines (pj : String → Option SSEUpdate) : List String → List CEvent × Bool
  | [] => ([], false)
  | line :: rest =>
    if jsStartsWith line "data: " then
      match pj (jsSlice line 6) with
      | some d =>
        if isTerminalStatus d.status then ([CEvent.statusUpdate d], true)
        else
          let pr := processLines pj rest
          (CEvent.statusUpdate d :: pr.1, pr.2)
      | none => ([CEvent.parseErrorCb], true)
    else processLines pj rest

/-- Whether the `canceled` flag is already set at await point `t`.
Await points are numbered `0` for the initial `fetch` and `i + 1` for
`reader.read()` number `i`; `cancelAt = some k` means the caller invoked
the cancellation handle while await `k` was in flight. -/
def canceledBy (cancelAt : Option Nat) (t : Nat) : Bool :=
  match cancelAt with
  | some k => k ≤ t
  | none => false

/-- The `while (!canceled)` read loop of `matchTemplateStream` as a
trace of tagged callback events: an event tagged `t` fired after await
point `t` completed.  `chunks` are the decoded text chunks the reads
return in order; after them the final read either reports `done`
(`endFail = none`) or rejects with a transport error message.  Each
iteration appends the chunk to the carried buffer, splits on newlines,
keeps the trailing partial line as the new buffer (`lines.pop() || ''`)
and runs the `data: ` line handler; the catch handler fires `onError`
only when the flag is still unset (`if (!canceled)`). -/
def loopStream (pj : String → Option SSEUpdate) (cancelAt : Option Nat)
    (endFail : Option String) :
    List String → String → Nat → List (Nat × CEvent)
  | chunks, buffer, i =>
    if canceledBy cancelAt i then []
    else
      match chunks with
      | [] =>
        match endFail with
        | some msg =>
          if canceledBy cancelAt (i + 1) then []
          else [(i + 1, CEvent.transportErrorCb msg)]
        | none => []
      | chunk :: rest =>
        let parts := jsSplitNewline (buffer ++ chunk)
        let newBuf := parts.getLastD ""
        let lines := parts.dropLast
        let pr := processLines pj lines
        let tagged := pr.1.map (fun e => ((i + 1 : Nat), e))
        if pr.2 then tagged
        else tagged ++ loopStream pj cancelAt endFail rest newBuf (i + 1)

/-- Function `matchTemplateStream` end to end: the fetch resolves with `status`;
a non-ok status throws `HTTP error! status: N` into the catch handler,
otherwise the read loop runs over the chunks. -/
def runStream (pj : String → Option SSEUpdate) (cancelAt : Option Nat)
    (status : Nat) (chunks : List String) (endFail : Option String) :
    List (Nat × CEvent) :=
  if 200 ≤ status ∧ status < 300 then loopStream pj cancelAt endFail chunks "" 0
  else if canceledBy cancelAt 0 then []
  else [(0, CEvent.transportErrorCb ("HTTP error! status: " ++ toString status))]

/-- A concrete SSE JSON payload used by the C3 theorems. -/
def ssePayload : String :=
  "\x7b\"status\": \"searching\", \"message\": \"Searching templates\"\x7d"

/-- The parsed form of `ssePayload`. -/
def sseSearching : SSEUpdate :=
  { status := "searching", message := "Searching templates", data := none }

/-- A model of `JSON.parse` that recognises exactly `ssePayload`,
consistent with the real parser on the inputs exercised. -/
def pj0 : String → Option SSEUpdate := fun s =>
  if s = ssePayload then some sseSearching else none

/-- The SSE frame carrying `ssePayload`. -/
def sseChunk : String := "data: " ++ ssePayload ++ "\n"

/-- C3 counterexample: it is not true that no callbacks fire after
cancellation.  Concretely, cancelling while the first read is in flight
(`cancelAt = 1`) does not stop the `data: ` line in that read's chunk
from being delivered: the status-update callback fires at await point 1,
i.e. after the cancellation handle was invoked. -/
theorem sse_cancel_counterexample :
    ¬ (∀ (pj : String → Option SSEUpdate) (c status : Nat)
        (chunks : List String) (endFail : Option String) (t : Nat) (e : CEvent),
        (t, e) ∈ runStream pj (some c) status chunks endFail → t < c) := by
  intro h
  have hrun : runStream pj0 (some 1) 200 [sseChunk] none
      = [(1, CEvent.statusUpdate sseSearching)] := by rfl
  have hmem : ((1 : Nat), CEvent.statusUpdate sseSearching)
      ∈ runStream pj0 (some 1) 200 [sseChunk] none := by
    rw [hrun]
    exact List.mem_singleton.mpr rfl
  exact absurd (h pj0 1 200 [sseChunk] none 1 (CEvent.statusUpdate sseSearching) hmem)
    (by omega)

/-- The `data: ` line handler never fires the transport-error callback:
its events are status updates or the parse failure. -/
theorem processLines_no_transport (pj : String → Option SSEUpdate)
    (lines : List String) :
    ∀ e ∈ (processLines pj lines).1, ∀ msg, e ≠ CEvent.transportErrorCb msg := by
  induction lines with
  | nil => intro e he; simp [processLines] at he
  | cons line rest ih =>
    intro e he msg
    unfold processLines at he
    by_cases hstart : jsStartsWith line "data: " = true
    · rw [if_pos hstart] at he
      cases hpj : pj (jsSlice line 6) with
      | some d =>
        rw [hpj] at he
        dsimp only at he
        by_cases hterm : isTerminalStatus d.status = true
        · rw [if_pos hterm] at he
          simp at he
          subst he
          intro hcontra
          cases hcontra
        · rw [if_neg hterm] at he
          simp at he
          cases he with
          | inl h1 => subst h1; intro hcontra; cases hcontra
          | inr h2 => exact ih e h2 msg
      | none =>
        rw [hpj] at he
        dsimp only at he
        simp at he
        subst he
        intro hcontra
        cases hcontra
    · rw [if_neg hstart] at he
      exact ih e he msg

/-- Every event of the read loop entered at iteration `i` with the flag
set during await `c` is tagged at most `c`, and transport-error events
are tagged strictly below `c`. -/
theorem loopStream_events_le (pj : String → Option SSEUpdate) (c : Nat)
    (endFail : Option String) (chunks : List String) :
    ∀ (buffer : String) (i t : Nat) (e : CEvent),
      (t, e) ∈ loopStream pj (some c) endFail chunks buffer i →
      t ≤ c ∧ ∀ msg, e = CEvent.transportErrorCb msg → t < c := by
  induction chunks with
  | nil =>
    intro buffer i t e hmem
    unfold loopStream at hmem
    by_cases hcan : canceledBy (some c) i = true
    · rw [if_pos hcan] at hmem
      simp at hmem
    · rw [if_neg hcan] at hmem
      have hic : i < c := by
        simp [canceledBy] at hcan
        omega
      cases endFail with
      | some msg =>
        by_cases hcan2 : canceledBy (some c) (i + 1) = true
        · simp only [if_pos hcan2] at hmem
          simp at hmem
        · simp only [if_neg hcan2] at hmem
          have hic2 : i + 1 < c := by
            simp [canceledBy] at hcan2
            omega
          simp at hmem
          obtain ⟨h1, h2⟩ := hmem
          subst h1
          subst h2
          exact ⟨by omega, fun _ _ => by omega⟩
      | none => simp at hmem
  | cons chunk rest ih =>
    intro buffer i t e hmem
    unfold loopStream at hmem
    by_cases hcan : canceledBy (some c) i = true
    · rw [if_pos hcan] at hmem
      simp at hmem
    · rw [if_neg hcan] at hmem
      have hic : i < c := by
        simp [canceledBy] at hcan
        omega
      simp only at hmem
      by_cases hterm : (processLines pj
          (jsSplitNewline (buffer ++ chunk)).dropLast).2 = true
      · rw [if_pos hterm] at hmem
        simp only [List.mem_map] at hmem
        obtain ⟨ev, hev, heq⟩ := hmem
        have ht : t = i + 1 := by
          cases heq
          rfl
        have he : e = ev := by
          cases heq
          rfl
        subst ht
        refine ⟨by omega, fun msg hmsg => ?_⟩
        exact absurd (he ▸ hmsg)
          (processLines_no_transport pj _ ev hev msg)
      · rw [if_neg hterm] at hmem
        rw [List.mem_append] at hmem
        cases hmem with
        | inl hin =>
          simp only [List.mem_map] at hin
          obtain ⟨ev, hev, heq⟩ := hin
          have ht : t = i + 1 := by
            cases heq
            rfl
          have he : e = ev := by
            cases heq
            rfl
          subst ht
          refine ⟨by omega, fun msg hmsg => ?_⟩
          exact absurd (he ▸ hmsg)
            (processLines_no_transport pj _ ev hev msg)
        | inr hin =>
          exact ih _ (i + 1) t e hin

/-- C3 (amended): after the cancellation handle is invoked during await
point `c`, no further reads start — every callback fires at an await
point `≤ c`, so the only events delivered at or after cancellation are
those of the single read already in flight (`t = c`), and the
transport-error callback is suppressed once the flag is set (its events
satisfy `t < c`). -/
theorem sse_cancel_amended (pj : String → Option SSEUpdate)
    (c status : Nat) (chunks : List String) (endFail : Option String)
    (t : Nat) (e : CEvent)
    (hmem : (t, e) ∈ runStream pj (some c) status chunks endFail) :
    t ≤ c ∧ ∀ msg, e = CEvent.transportErrorCb msg → t < c := by
  unfold runStream at hmem
  by_cases h2xx : 200 ≤ status ∧ status < 300
  · rw [if_pos h2xx] at hmem
    exact loopStream_events_le pj c endFail chunks "" 0 t e hmem
  · rw [if_neg h2xx] at hmem
    by_cases hcan : canceledBy (some c) 0 = true
    · rw [if_pos hcan] at hmem
      simp at hmem
    · rw [if_neg hcan] at hmem
      have hc : 0 < c := by
        simp [canceledBy] at hcan
        omega
      simp at hmem
      obtain ⟨h1, h2⟩ := hmem
      subst h1
      subst h2
      exact ⟨by omega, fun _ _ => by omega⟩

/-- Witness for the amended C3: with cancellation during the second read
(`cancelAt = 2`), the one delivered status update is tagged `1 ≤ 2` and
is not a transport error. -/
theorem sse_cancel_amended_witness :
    ((1 : Nat), CEvent.statusUpdate sseSearching)
      ∈ runStream pj0 (some 2) 200 [sseChunk] none ∧
    (1 ≤ 2 ∧ ∀ msg, CEvent.statusUpdate sseSearching
      = CEvent.transportErrorCb msg → 1 < 2) := by
  have hrun : runStream pj0 (some 2) 200 [sseChunk] none
      = [(1, CEvent.statusUpdate sseSearching)] := by rfl
  have hmem : ((1 : Nat), CEvent.statusUpdate sseSearching)
      ∈ runStream pj0 (some 2) 200 [sseChunk] none := by
    rw [hrun]
    exact List.mem_singleton.mpr rfl
  exact ⟨hmem, sse_cancel_amended pj0 2 200 [sseChunk] none 1
    (CEvent.statusUpdate sseSearching) hmem⟩

/-- Status line shown while templates are being searched. -/
def searchingMsg : String := "üîç Searching for matching templates..."

/-- Status line shown while the web is being searched. -/
def searchingWebMsg : String := "üåê Searching the web for templates..."

/-- Assistant message for "no match found" (used for both a
not-found success payload and the `no_templates` status). -/
def noMatchMsg : String :=
  "I couldn&apos;t find a matching template for your request. Try uploading a document first or refining your query with more specific details about the legal document you need."

/-- Assistant message when exactly one template matched. -/
def foundOneMsg (title : String) : String :=
  "Perfect! I found a matching template: \"" ++ title ++ "\". Let me generate some questions to help create your document."

/-- Assistant message when alternatives exist
(`result.alternatives.length + 1` options). -/
def foundManyMsg (altCount : Nat) : String :=
  "I found " ++ toString (altCount + 1) ++ " matching templates. Here are the options:"

/-- Assistant message for the SSE `error` status
(`update.message || 'Failed to match template'`). -/
def matchErrorMsg (m : String) : String :=
  "I encountered an error: " ++ (if m = "" then "Failed to match template" else m)
    ++ ". Please try again."

/-- Assistant message for a transport failure
(`error.message || 'Connection failed'`). -/
def connErrorMsg (m : String) : String :=
  "I encountered an error: " ++ (if m = "" then "Connection failed" else m)
    ++ ". Please try again."

/-- The `onStatusUpdate` callback passed to `matchTemplateStream` by
`handleStartMatching`.  Terminal branches (success with data, `error`,
`no_templates`) clear `isLoading` and the `isProcessingRef` guard; the
found-without-alternatives branch records the auto-selected template and
appends its id to the `handleGetQuestions` invocation trace. -/
def onMatchUpdate (u : SSEUpdate) (s : ChatPageState) : ChatPageState :=
  if u.status == "searching" then
    stAddMessage s MsgType.assistant searchingMsg none false false
  else if u.status == "searching_web" then
    stAddMessage s MsgType.assistant searchingWebMsg none true false
  else if u.status == "success" && u.data.isSome then
    match u.data with
    | some result =>
      if !result.found || result.top_match.isNone then
        let s1 := stAddMessage s MsgType.assistant noMatchMsg none true false
        { s1 with isLoading := false, isProcessing := false }
      else
        match result.top_match with
        | some top =>
          let s1 := { s with topMatch := some top, alternatives := result.alternatives }
          if result.alternatives.length > 0 then
            let s2 := stAddMessage s1 MsgType.assistant
              (foundManyMsg result.alternatives.length)
              (some { templateMatches := some (top :: result.alternatives),
                      questions := none, draft := none, prefilled := none })
              true false
            { s2 with isLoading := false, isProcessing := false }
          else
            let s2 := stAddMessage s1 MsgType.assistant (foundOneMsg top.title)
              none true false
            let s3 := { s2 with
              selectedTemplateId := some top.template_id,
              questionsRequested := s2.questionsRequested ++ [top.template_id] }
            { s3 with isLoading := false, isProcessing := false }
        | none => s
    | none => s
  else if u.status == "error" then
    let s1 := stAddMessage s MsgType.assistant (matchErrorMsg u.message) none true false
    { s1 with isLoading := false, isProcessing := false }
  else if u.status == "no_templates" then
    let s1 := stAddMessage s MsgType.assistant noMatchMsg none true false
    { s1 with isLoading := false, isProcessing := false }
  else s

/-- The `onError` callback passed to `matchTemplateStream`: report the
failure and clear the loading flag and the guard. -/
def onMatchError (emsg : String) (s : ChatPageState) : ChatPageState :=
  let s1 := stAddMessage s MsgType.assistant (connErrorMsg emsg) none true false
  { s1 with isLoading := false, isProcessing := false }

/-- Model of `x || y` for an optional string against a string default
(`queryOverride || userQuery`). -/
def jsOrString (o : Option String) (dflt : String) : String :=
  match o with
  | some s => if s = "" then dflt else s
  | none => dflt

/-- Function `handleStartMatching` up to the point where `matchTemplateStream` is
invoked.  Returns the state at invocation time together with whether the
streaming request was issued at all: an empty (trimmed) query and the
`isProcessingRef` guard both return early without a request; otherwise
the guard is set, loading starts, the input is cleared when the query
came from the input box, and the user message is appended. -/
def handleStartMatching (s : ChatPageState) (queryOverride : Option String)
    (newChatId : String) : ChatPageState × Bool :=
  let query := jsOrString queryOverride s.userQuery
  if jsTrim query == "" then
    ({ s with error := some "Please enter a description" }, false)
  else
    let s1 := if jsStrOptTruthy s.currentChatId then s else createNewChat s newChatId
    if s1.isProcessing then (s1, false)
    else
      let s2 := { s1 with isProcessing := true, error := none, isLoading := true }
      let s3 := if jsStrOptTruthy queryOverride then s2 else { s2 with userQuery := "" }
      (stAddMessage s3 MsgType.user query none false false, true)

/-- Creating a new chat does not touch the in-flight guard. -/
theorem createNewChat_isProcessing (s : ChatPageState) (nid : String) :
    (createNewChat s nid).isProcessing = s.isProcessing := by
  unfold createNewChat
  by_cases h : (jsStrOptTruthy s.currentChatId && !s.messages.isEmpty) = true
  · rw [if_pos h]
    cases s.currentChatId <;> rfl
  · rw [if_neg h]

/-- C4: the in-flight guard around the streaming match.  (a) While the
guard is set, invoking the match operation issues no request.  (b) When
a request is issued, the state it closes over already has the guard set
(the flag is assigned before `matchTemplateStream` is called).  (c–f)
Every terminal branch of the status callback — success carrying a data
payload (found or not), the `error` status, the `no_templates` status —
and the transport-error callback reset the guard to false. -/
theorem match_guard_flag :
    (∀ (s : ChatPageState) (q : Option String) (nid : String),
      s.isProcessing = true → (handleStartMatching s q nid).2 = false) ∧
    (∀ (s : ChatPageState) (q : Option String) (nid : String),
      (handleStartMatching s q nid).2 = true →
        (handleStartMatching s q nid).1.isProcessing = true) ∧
    (∀ (s : ChatPageState) (u : SSEUpdate) (d : TemplateMatchResponseBody),
      u.status = "success" → u.data = some d →
        (onMatchUpdate u s).isProcessing = false) ∧
    (∀ (s : ChatPageState) (u : SSEUpdate),
      u.status = "error" → (onMatchUpdate u s).isProcessing = false) ∧
    (∀ (s : ChatPageState) (u : SSEUpdate),
      u.status = "no_templates" → (onMatchUpdate u s).isProcessing = false) ∧
    (∀ (s : ChatPageState) (emsg : String),
      (onMatchError emsg s).isProcessing = false) := by
  refine ⟨?_, ?_, ?_, ?_, ?_, ?_⟩
  · intro s q nid h
    unfold handleStartMatching
    by_cases hq : (jsTrim (jsOrString q s.userQuery) == "") = true
    · rw [if_pos hq]
    · rw [if_neg hq]
      have hp : (if jsStrOptTruthy s.currentChatId then s
          else createNewChat s nid).isProcessing = true := by
        by_cases hc : jsStrOptTruthy s.currentChatId = true
        · rw [if_pos hc]; exact h
        · rw [if_neg hc]; rw [createNewChat_isProcessing]; exact h
      rw [if_pos hp]
  · intro s q nid h
    unfold handleStartMatching at h ⊢
    by_cases hq : (jsTrim (jsOrString q s.userQuery) == "") = true
    · rw [if_pos hq] at h
      simp at h
    · rw [if_neg hq] at h ⊢
      by_cases hp : (if jsStrOptTruthy s.currentChatId then s
          else createNewChat s nid).isProcessing = true
      · rw [if_pos hp] at h
        simp at h
      · rw [if_neg hp]
        dsimp only
        split <;> rfl
  · intro s u d hst hdata
    have hb1 : (u.status == "searching") = false := by rw [hst]; decide
    have hb2 : (u.status == "searching_web") = false := by rw [hst]; decide
    have hb3 : (u.status == "success") = true := by rw [hst]; decide
    unfold onMatchUpdate
    rw [hb1, hb2, hb3, hdata]
    simp only [Option.isSome_some, Bool.and_self, Bool.true_and, if_false,
      Bool.false_eq_true, if_true]
    by_cases hcond : (!d.found || d.top_match.isNone) = true
    · rw [if_pos hcond]
    · rw [if_neg hcond]
      cases htop : d.top_match with
      | none =>
        rw [htop] at hcond
        simp at hcond
      | some top =>
        dsimp only
        split <;> rfl
  · intro s u hst
    have hb1 : (u.status == "searching") = false := by rw [hst]; decide
    have hb2 : (u.status == "searching_web") = false := by rw [hst]; decide
    have hb3 : (u.status == "success") = false := by rw [hst]; decide
    have hb4 : (u.status == "error") = true := by rw [hst]; decide
    unfold onMatchUpdate
    rw [hb1, hb2, hb3, hb4]
    simp
  · intro s u hst
    have hb1 : (u.status == "searching") = false := by rw [hst]; decide
    have hb2 : (u.status == "searching_web") = false := by rw [hst]; decide
    have hb3 : (u.status == "success") = false := by rw [hst]; decide
    have hb4 : (u.status == "error") = false := by rw [hst]; decide
    have hb5 : (u.status == "no_templates") = true := by rw [hst]; decide
    unfold onMatchUpdate
    rw [hb1, hb2, hb3, hb4, hb5]
    simp
  · intro s emsg
    rfl

/-- Setting the last position of `xs ++ [b]` replaces `b`. -/
theorem set_append_last {α : Type} (xs : List α) (b c : α) :
    (xs ++ [b]).set xs.length c = xs ++ [c] := by
  induction xs with
  | nil => rfl
  | cons a t ih => simp [List.set, ih]

/-- The `arr[arr.length - 1] = nm` write on a nonempty array replaces
its last element. -/
theorem jsArraySet_replace_last {α : Type} (xs : List α) (b c : α) :
    jsArraySet (xs ++ [b]) (((xs ++ [b]).length : Int) - 1) c = xs ++ [c] := by
  unfold jsArraySet
  have hlen : (xs ++ [b]).length = xs.length + 1 := by simp
  rw [hlen]
  have heq : ((xs.length + 1 : Nat) : Int) - 1 = (xs.length : Int) := by
    push_cast
    ring
  rw [heq]
  rw [if_neg (by omega : ¬ ((xs.length : Int) < 0))]
  have htn : (xs.length : Int).toNat = xs.length := by simp
  rw [htn]
  rw [if_pos (by omega : xs.length < xs.length + 1)]
  exact set_append_last xs b c

/-- Lemma: `addMessage` in replace-last mode on a nonempty list replaces the
last message. -/
theorem addMessageList_replaceLast_append (xs : List Message) (b nm : Message) :
    addMessageList (xs ++ [b]) nm true false = xs ++ [nm] := by
  show jsArraySet (xs ++ [b]) (((xs ++ [b]).length : Int) - 1) nm = xs ++ [nm]
  exact jsArraySet_replace_last xs b nm

/-- The `searching` status appends the searching status line. -/
theorem onMatchUpdate_searching (msg1 : String)
    (dat1 : Option TemplateMatchResponseBody) (s : ChatPageState) :
    onMatchUpdate { status := "searching", message := msg1, data := dat1 } s
      = stAddMessage s MsgType.assistant searchingMsg none false false := rfl

/-- The `success` branch with a found top match and no alternatives:
record the match, replace the status line with the found message, select
the template and request its questions, then clear loading and the
guard. -/
theorem onMatchUpdate_success_single (msg2 : String) (dmsg : Option String)
    (top : TemplateMatch) (s : ChatPageState) :
    onMatchUpdate
      { status := "success", message := msg2,
        data := some { top_match := some top, alternatives := [],
                       found := true, message := dmsg } } s
      = (let s1 := { s with topMatch := some top, alternatives := ([] : List TemplateMatch) };
         let s2 := stAddMessage s1 MsgType.assistant (foundOneMsg top.title)
           none true false;
         let s3 := { s2 with selectedTemplateId := some top.template_id, questionsRequested := s2.questionsRequested ++ [top.template_id] };
         { s3 with isLoading := false, isProcessing := false }) := rfl

/-- C8: on an SSE stream emitting `searching` and then `success` with a
found top match and an empty alternatives list, the consumer selects the
top match's template id, immediately requests its questions, and the net
message effect is one new assistant message carrying no metadata — in
particular no `templateMatches` metadata, so no template-selection
choice is presented. -/
theorem sse_auto_select (s0 : ChatPageState) (u1 u2 : SSEUpdate)
    (d : TemplateMatchResponseBody) (top : TemplateMatch)
    (h1 : u1.status = "searching") (h2 : u2.status = "success")
    (hd : u2.data = some d) (hf : d.found = true)
    (htop : d.top_match = some top) (halt : d.alternatives = []) :
    (onMatchUpdate u2 (onMatchUpdate u1 s0)).selectedTemplateId
        = some top.template_id ∧
    (onMatchUpdate u2 (onMatchUpdate u1 s0)).questionsRequested
        = s0.questionsRequested ++ [top.template_id] ∧
    (onMatchUpdate u2 (onMatchUpdate u1 s0)).messages.map (fun m => m.metadata)
        = s0.messages.map (fun m => m.metadata) ++ [none] := by
  cases u1 with
  | mk st1 msg1 dat1 =>
    cases u2 with
    | mk st2 msg2 dat2 =>
      cases d with
      | mk dtop dalts dfound dmsg =>
        dsimp only at h1 h2 hd hf htop halt
        subst h1 h2 hd hf htop halt
        rw [onMatchUpdate_searching, onMatchUpdate_success_single]
        refine ⟨rfl, rfl, ?_⟩
        show (addMessageList
            (s0.messages ++ [freshMessage s0 MsgType.assistant searchingMsg none])
            (freshMessage
              { stAddMessage s0 MsgType.assistant searchingMsg none false false with
                topMatch := some top, alternatives := ([] : List TemplateMatch) }
              MsgType.assistant (foundOneMsg top.title) none)
            true false).map (fun m => m.metadata)
          = s0.messages.map (fun m => m.metadata) ++ [none]
        rw [addMessageList_replaceLast_append]
        rw [List.map_append]
        rfl

/-- A concrete template match used by witnesses. -/
def wTop : TemplateMatch :=
  { template_id := "t-nda", title := "NDA Template", confidence := 0.9,
    explanation := "close match", doc_type := none, jurisdiction := none,
    semantic_similarity := none, source := "database", web_url := none }

/-- A concrete found-with-no-alternatives match payload. -/
def wBody : TemplateMatchResponseBody :=
  { top_match := some wTop, alternatives := [], found := true, message := none }

/-- Concrete SSE updates used by witnesses. -/
def wuSearching : SSEUpdate :=
  { status := "searching", message := "Searching", data := none }

/-- Concrete `success` SSE update carrying `wBody`. -/
def wuSuccess : SSEUpdate :=
  { status := "success", message := "Done", data := some wBody }

/-- Concrete `error` SSE update. -/
def wuError : SSEUpdate :=
  { status := "error", message := "kaboom", data := none }

/-- Concrete `no_templates` SSE update. -/
def wuNoTemplates : SSEUpdate :=
  { status := "no_templates", message := "", data := none }

/-- A concrete state with the guard already set. -/
def wBusy : ChatPageState := { wState with isProcessing := true }

/-- Witness for C4: each conjunct of the guard theorem applied at a
concrete state and concrete updates. -/
theorem match_guard_flag_witness :
    (wBusy.isProcessing = true ∧
      (handleStartMatching wBusy (some "need an NDA") "n1").2 = false) ∧
    ((handleStartMatching wState (some "need an NDA") "n1").2 = true ∧
      (handleStartMatching wState (some "need an NDA") "n1").1.isProcessing = true) ∧
    (wuSuccess.status = "success" ∧ wuSuccess.data = some wBody ∧
      (onMatchUpdate wuSuccess wState).isProcessing = false) ∧
    (wuError.status = "error" ∧
      (onMatchUpdate wuError wState).isProcessing = false) ∧
    (wuNoTemplates.status = "no_templates" ∧
      (onMatchUpdate wuNoTemplates wState).isProcessing = false) ∧
    (onMatchError "boom" wState).isProcessing = false :=
  ⟨⟨rfl, match_guard_flag.1 wBusy (some "need an NDA") "n1" rfl⟩,
   ⟨rfl, match_guard_flag.2.1 wState (some "need an NDA") "n1" rfl⟩,
   ⟨rfl, rfl, match_guard_flag.2.2.1 wState wuSuccess wBody rfl rfl⟩,
   ⟨rfl, match_guard_flag.2.2.2.1 wState wuError rfl⟩,
   ⟨rfl, match_guard_flag.2.2.2.2.1 wState wuNoTemplates rfl⟩,
   match_guard_flag.2.2.2.2.2 wState "boom"⟩

/-- Witness for C8: the searching-then-success stream applied to the
concrete state `wState` with the concrete match `wTop`. -/
theorem sse_auto_select_witness :
    wuSearching.status = "searching" ∧ wuSuccess.status = "success" ∧
    wuSuccess.data = some wBody ∧ wBody.found = true ∧
    wBody.top_match = some wTop ∧ wBody.alternatives = [] ∧
    ((onMatchUpdate wuSuccess (onMatchUpdate wuSearching wState)).selectedTemplateId
        = some wTop.template_id ∧
     (onMatchUpdate wuSuccess (onMatchUpdate wuSearching wState)).questionsRequested
        = wState.questionsRequested ++ [wTop.template_id] ∧
     (onMatchUpdate wuSuccess (onMatchUpdate wuSearching wState)).messages.map
        (fun m => m.metadata)
        = wState.messages.map (fun m => m.metadata) ++ [none]) :=
  ⟨rfl, rfl, rfl, rfl, rfl, rfl,
   sse_auto_select wState wuSearching wuSuccess wBody wTop rfl rfl rfl rfl rfl rfl⟩

/-- Conversion of an example string by declared data type inside
`handleFillWithExamples`; `toNumber` is the JS `Number()` builtin,
passed as a parameter. -/
def exampleValue (toNumber : String → Float) (dtype ex : String) : JsValue :=
  if dtype == "number" || dtype == "int" || dtype == "float" then
    JsValue.num (toNumber ex)
  else if dtype == "boolean" then
    JsValue.bool (jsToLower ex == "true" || jsToLower ex == "yes")
  else JsValue.str ex

/-- The fill guard of `handleFillWithExamples`:
`question.example && (!answers[question.key] || answers[question.key] === '')`.
A question qualifies when its example is truthy (present and nonempty)
and the current answer is JS-falsy or the empty string. -/
def fillCondition (answers : List (String × JsValue)) (q : Question) : Bool :=
  match q.example_ with
  | none => false
  | some ex =>
    (ex ≠ "") &&
      (match objGet answers q.key with
       | none => true
       | some v => !(jsTruthy v) || jsIsEmptyStr v)

/-- The `questions.forEach` loop of `handleFillWithExamples`, building
the `examples` object left to right. -/
def buildExamplesAux (toNumber : String → Float)
    (answers : List (String × JsValue)) :
    List Question → List (String × JsValue) → List (String × JsValue)
  | [], acc => acc
  | q :: rest, acc =>
    buildExamplesAux toNumber answers rest
      (if fillCondition answers q then
        match q.example_ with
        | some ex => objSetKey acc q.key (exampleValue toNumber q.dtype ex)
        | none => acc
       else acc)

/-- Function `handleFillWithExamples` from `src/app/chat/page.tsx`: build the
`examples` object from the qualifying questions, then
`setAnswers(prev => ({ ...prev, ...examples }))`. -/
def handleFillWithExamples (toNumber : String → Float)
    (questions : List Question) (answers : List (String × JsValue)) :
    List (String × JsValue) :=
  objMerge answers (buildExamplesAux toNumber answers questions [])

/-- A boolean question with example `\"yes\"`. -/
def wBoolQ : Question :=
  { key := "agrees", question := "Does party B agree?", description := none,
    example_ := some "yes", required := true, dtype := "boolean",
    regex := none, enum_values := none }

/-- C10 counterexample: the answer `false` for the boolean question is
present and is not the empty string, yet fill-with-examples overwrites
it with the converted example `true` — a user-entered answer is
overwritten. -/
theorem fill_examples_counterexample :
    objGet [("agrees", JsValue.bool false)] "agrees" = some (JsValue.bool false) ∧
    jsIsEmptyStr (JsValue.bool false) = false ∧
    objGet (handleFillWithExamples (fun _ => 0.0) [wBoolQ]
        [("agrees", JsValue.bool false)]) "agrees"
      = some (JsValue.bool true) ∧
    some (JsValue.bool true) ≠ some (JsValue.bool false) := by
  refine ⟨rfl, rfl, rfl, ?_⟩
  intro h
  simp at h

/-- Updating a different key preserves lookups. -/
theorem objGet_objSetKey_ne (obj : List (String × JsValue)) (k0 k : String)
    (v : JsValue) (hne : k0 ≠ k) :
    objGet (objSetKey obj k0 v) k = objGet obj k := by
  have hbeq : (k0 == k) = false := by simp [hne]
  induction obj with
  | nil => simp [objSetKey, objGet, List.find?, hbeq]
  | cons e rest ih =>
    by_cases he : (e.1 == k0) = true
    · have he1 : e.1 = k0 := by simpa using he
      have hek : (e.1 == k) = false := by simp [he1, hne]
      simp [objSetKey, he, objGet, List.find?, hbeq, hek]
    · have he' : (e.1 == k0) = false := by
        cases hb : (e.1 == k0)
        · rfl
        · exact absurd hb he
      by_cases hek : (e.1 == k) = true
      · simp [objSetKey, he', objGet, List.find?, hek]
      · have hek' : (e.1 == k) = false := by
          cases hb : (e.1 == k)
          · rfl
          · exact absurd hb hek
        simp only [objGet, List.find?] at ih ⊢
        simpa [objSetKey, he', hek'] using ih

/-- Merging an object none of whose keys is `k` preserves the lookup of
`k`. -/
theorem objGet_objMerge_notkey (updates prev : List (String × JsValue))
    (k : String) (h : ∀ e ∈ updates, e.1 ≠ k) :
    objGet (objMerge prev updates) k = objGet prev k := by
  induction updates generalizing prev with
  | nil => rfl
  | cons e rest ih =>
    have he : e.1 ≠ k := h e (List.mem_cons_self e rest)
    have hrest : ∀ x ∈ rest, x.1 ≠ k := fun x hx => h x (List.mem_cons_of_mem e hx)
    show objGet (objMerge (objSetKey prev e.1 e.2) rest) k = objGet prev k
    rw [ih (objSetKey prev e.1 e.2) hrest]
    exact objGet_objSetKey_ne prev e.1 k e.2 he

/-- Lemma: `objSetKey` introduces no key other than the inserted one. -/
theorem objSetKey_keys (obj : List (String × JsValue)) (k0 k : String)
    (v : JsValue) (hobj : ∀ e ∈ obj, e.1 ≠ k) (hne : k0 ≠ k) :
    ∀ e ∈ objSetKey obj k0 v, e.1 ≠ k := by
  induction obj with
  | nil =>
    intro e he
    simp [objSetKey] at he
    rw [he]
    exact hne
  | cons x rest ih =>
    intro e he
    by_cases hx : (x.1 == k0) = true
    · simp only [objSetKey, if_pos hx] at he
      cases he with
      | head => exact hne
      | tail _ htail => exact hobj e (List.mem_cons_of_mem x htail)
    · simp only [objSetKey, if_neg hx] at he
      cases he with
      | head => exact hobj x (List.mem_cons_self x rest)
      | tail _ htail =>
        exact ih (fun y hy => hobj y (List.mem_cons_of_mem x hy)) e htail

/-- If no question keyed `k` passes the fill guard, the `examples`
object built by the forEach loop never acquires key `k`. -/
theorem buildExamplesAux_keys (toNumber : String → Float)
    (answers : List (String × JsValue)) (k : String) :
    ∀ (questions : List Question) (acc : List (String × JsValue)),
      (∀ e ∈ acc, e.1 ≠ k) →
      (∀ q ∈ questions, q.key = k → fillCondition answers q = false) →
      ∀ e ∈ buildExamplesAux toNumber answers questions acc, e.1 ≠ k := by
  intro questions
  induction questions with
  | nil => intro acc hacc _ e he; exact hacc e he
  | cons q rest ih =>
    intro acc hacc hq e he
    have hrest : ∀ x ∈ rest, x.key = k → fillCondition answers x = false :=
      fun x hx => hq x (List.mem_cons_of_mem q hx)
    by_cases hfill : fillCondition answers q = true
    · have hqk : q.key ≠ k := by
        intro hk
        rw [hq q (List.mem_cons_self q rest) hk] at hfill
        exact absurd hfill (by simp)
      cases hex : q.example_ with
      | some ex =>
        refine ih (objSetKey acc q.key (exampleValue toNumber q.dtype ex))
          (objSetKey_keys acc q.key k _ hacc hqk) hrest e ?_
        simpa [buildExamplesAux, hfill, hex] using he
      | none =>
        refine ih acc hacc hrest e ?_
        simpa [buildExamplesAux, hfill, hex] using he
    · refine ih acc hacc hrest e ?_
      have hfill' : fillCondition answers q = false := by
        cases hb : fillCondition answers q
        · rfl
        · exact absurd hb hfill
      simpa [buildExamplesAux, hfill'] using he

/-- A truthy value is never the empty string. -/
theorem jsTruthy_not_emptyStr (v : JsValue) (h : jsTruthy v = true) :
    jsIsEmptyStr v = false := by
  cases v <;> simp_all [jsTruthy, jsIsEmptyStr]

/-- C10 (amended): fill-with-examples modifies only answer keys for
which some question declares a truthy (present and nonempty) example and
whose current answer is absent or JS-falsy; in particular every key
whose current answer is truthy is left unchanged. -/
theorem fill_examples_frame (toNumber : String → Float)
    (questions : List Question) (answers : List (String × JsValue))
    (k : String) :
    ((∀ q ∈ questions, q.key = k → fillCondition answers q = false) →
      objGet (handleFillWithExamples toNumber questions answers) k
        = objGet answers k) ∧
    (∀ v, objGet answers k = some v → jsTruthy v = true →
      objGet (handleFillWithExamples toNumber questions answers) k
        = objGet answers k) := by
  constructor
  · intro hq
    unfold handleFillWithExamples
    exact objGet_objMerge_notkey _ answers k
      (buildExamplesAux_keys toNumber answers k questions []
        (by intro e he; simp at he) hq)
  · intro v hv htr
    unfold handleFillWithExamples
    refine objGet_objMerge_notkey _ answers k
      (buildExamplesAux_keys toNumber answers k questions []
        (by intro e he; simp at he) ?_)
    intro q _ hk
    unfold fillCondition
    cases hex : q.example_ with
    | none => rfl
    | some ex =>
      rw [hk, hv]
      dsimp only
      rw [htr, jsTruthy_not_emptyStr v htr]
      simp

/-- Witness for the amended C10: the truthy answer at key `other` is
untouched by fill-with-examples. -/
theorem fill_examples_frame_witness :
    objGet [("other", JsValue.str "x")] "other" = some (JsValue.str "x") ∧
    jsTruthy (JsValue.str "x") = true ∧
    objGet (handleFillWithExamples (fun _ => 0.0) [wBoolQ]
        [("other", JsValue.str "x")]) "other"
      = objGet [("other", JsValue.str "x")] "other" :=
  ⟨rfl, by decide,
   (fill_examples_frame (fun _ => 0.0) [wBoolQ] [("other", JsValue.str "x")]
      "other").2 (JsValue.str "x") rfl (by decide)⟩
